import Mathlib

/-!
Verification development for the glslViewer reload/reconfigure engine.

The embedding below shallowly models the two source files of the repository:
`src/sandbox.cpp` (the `Sandbox` class: shader reloading, buffer-pass
reconciliation, dependency replacement, uniform presence, dirty tracking)
and the main translation unit (global state, the command registry, the
render loop, the file-watcher thread and the console dispatcher `runCmd`).

Collaborators that are part of the repository but not present under the
given sources (the `Uniforms` registry internals, `count_buffers`,
`check_for_postprocessing`, `loadFromPath`, filesystem `stat`, window
queries) are modelled from the natural-language spec and gathered in the
`Env` record or marked `Modelled from the spec:` in their doc comments.

Machine floats that flow through the console (uniform values, record
timestamps) are modelled as rationals; the claims under study only involve
exactly-representable values, so no rounding behaviour is relied upon.
-/

namespace GlslViewer

/-! ## String helpers

The C++ code compares and searches `std::string`s.  We work on the
underlying character lists so that everything reduces in the kernel. -/

/-- Character-list version of `std::string::compare(0, n, b) == 0`:
`leadsList a b` is true when `a` is an initial segment of `b`. -/
def leadsList : List Char → List Char → Bool
  | [], _ => true
  | _ :: _, [] => false
  | a :: as, b :: bs => a == b && leadsList as bs

/-- The `beginsWith(str, begin)` helper of `tools/text.h`: does `s`
start with `b`? -/
def beginsWith (s b : String) : Bool :=
  leadsList b.data s.data

/-- Substring occurrence over character lists
(`std::string::find != npos`). -/
def occursList (needle : List Char) : List Char → Bool
  | [] => leadsList needle []
  | c :: rest => leadsList needle (c :: rest) || occursList needle rest

/-- Literal substring occurrence on strings: the textual liveness scan the
engine uses for uniform presence. -/
def occursIn (needle hay : String) : Bool :=
  occursList needle.data hay.data

/-- Splitting helper: accumulate the current token (reversed) while
walking the characters. -/
def splitListAux (sep : Char) : List Char → List Char → List String
  | [], acc => [String.mk acc.reverse]
  | c :: cs, acc =>
    if c == sep then String.mk acc.reverse :: splitListAux sep cs []
    else splitListAux sep cs (c :: acc)

/-- The `split(line, sep)` helper of `tools/text.h`, specialised to the
comma used by the console protocol. -/
def splitComma (s : String) : List String :=
  splitListAux ',' s.data []

/-- Parse an unsigned run of decimal digits, returning the value and the
rest of the characters. -/
def digitsVal : List Char → Nat → Nat × List Char
  | [], acc => (acc, [])
  | c :: cs, acc =>
    if c.isDigit then digitsVal cs (acc * 10 + (c.toNat - '0'.toNat))
    else (acc, c :: cs)

/-- Parse the fractional digits after the decimal point as a rational in
`[0, 1)`. -/
def fracVal : List Char → ℚ → ℚ → ℚ × List Char
  | [], acc, _ => (acc, [])
  | c :: cs, acc, scale =>
    if c.isDigit then
      fracVal cs (acc + (((c.toNat - '0'.toNat) : ℚ) * scale) / 10) (scale / 10)
    else (acc, c :: cs)

/-- Modelled from the spec: the console's `toFloat` conversion for uniform
assignment values (`tools/text.cpp`, not under the given sources).  A
decimal literal with an optional sign and fraction part parses to its
exact rational value; anything else is not numeric. -/
def parseFloatQ (s : String) : Option ℚ :=
  match s.data with
  | [] => none
  | cs =>
    let (neg, cs) := match cs with
      | '-' :: rest => (true, rest)
      | rest => (false, rest)
    match cs with
    | [] => none
    | c :: _ =>
      if c.isDigit then
        let (ip, rest) := digitsVal cs 0
        let (v, rest2) : ℚ × List Char :=
          match rest with
          | '.' :: frest =>
            let (f, r) := fracVal frest 0 (1 : ℚ)
            ((ip : ℚ) + f, r)
          | r => ((ip : ℚ), r)
        match rest2 with
        | [] => some (if neg then -v else v)
        | _ => none
      else none

/-! ## Data model -/

/-- The kind tag of a watched file (`FileType` in `types.h`). -/
inductive FileType where
  | FRAG_SHADER
  | VERT_SHADER
  | GEOMETRY
  | GLSL_DEPENDENCY
  | IMAGE
  | CUBEMAP
deriving DecidableEq, Repr

/-- One entry of the Watch Registry (`WatchFile`): kind, path, cached
modification time and vertical-flip flag. -/
structure WatchFile where
  type : FileType
  path : String
  lastChange : Int
  vFlip : Bool := true
deriving DecidableEq, Repr

/-- Framebuffer pixel layouts (`FboType` of the graphics backend). -/
inductive FboType where
  | COLOR_TEXTURE
  | COLOR_TEXTURE_DEPTH_BUFFER
  | COLOR_DEPTH_TEXTURES
deriving DecidableEq, Repr

/-- A framebuffer object as the engine observes it: whether it has been
allocated, at which size and with which pixel layout. -/
structure FboM where
  allocated : Bool := false
  width : Nat := 0
  height : Nat := 0
  ftype : FboType := FboType.COLOR_TEXTURE
deriving DecidableEq, Repr

/-- A shader program as the engine observes it: its preprocessor defines
and the pair of source strings last handed to `load`. -/
structure ShaderM where
  defines : List (String × String) := []
  fragSrc : String := ""
  vertSrc : String := ""
deriving DecidableEq, Repr

/-- Replace the value of the first binding of `k`, or append a new
binding: the behaviour of the define table keyed by name. -/
def assocSet (k : String) (v : String) : List (String × String) → List (String × String)
  | [] => [(k, v)]
  | (k0, v0) :: rest =>
    if k0 = k then (k0, v) :: rest else (k0, v0) :: assocSet k v rest

/-- Remove every binding of `k`. -/
def assocDel (k : String) (l : List (String × String)) : List (String × String) :=
  l.filter (fun kv => kv.1 ≠ k)

/-- The shader's `addDefine(define, value)`. -/
def ShaderM.addDefine (sh : ShaderM) (k v : String) : ShaderM :=
  { sh with defines := assocSet k v sh.defines }

/-- The shader's `delDefine(define)`. -/
def ShaderM.delDefine (sh : ShaderM) (k : String) : ShaderM :=
  { sh with defines := assocDel k sh.defines }

/-- The shader's `load(fragSource, vertSource, verbose)`: record the two
source strings the program was compiled from. -/
def ShaderM.load (sh : ShaderM) (f v : String) : ShaderM :=
  { sh with fragSrc := f, vertSrc := v }

/-- A registered uniform function (`UniformFunction`): the declared GLSL
type and the liveness flag recomputed on every reload.  The two behaviour
closures (bind, text dump) act only on the graphics backend and carry no
state the claims observe. -/
structure UniformFunctionM where
  declType : String := ""
  present : Bool := false
deriving DecidableEq, Repr

/-- A user-defined data uniform created by the console fallback parser:
inferred type name, stored values and per-entry change mark. -/
structure UniformDataM where
  utype : String := ""
  values : List ℚ := []
  change : Bool := false
deriving DecidableEq, Repr

/-- Update the first binding of `name` in an association list with `f`,
inserting `f default` when the name is absent (the `std::map::operator[]`
access pattern). -/
def mapUpdate {α : Type} [Inhabited α] (name : String) (f : α → α) :
    List (String × α) → List (String × α)
  | [] => [(name, f default)]
  | (k, v) :: rest =>
    if k = name then (k, f v) :: rest else (k, v) :: mapUpdate name f rest

/-- Lookup of the first binding of `name`. -/
def mapFind {α : Type} (name : String) : List (String × α) → Option α
  | [] => none
  | (k, v) :: rest => if k = name then some v else mapFind name rest

instance : Inhabited UniformFunctionM := ⟨{}⟩

instance : Inhabited UniformDataM := ⟨{}⟩

/-- Modelled from the spec: `Uniforms::checkPresenceIn(vert, frag)` (the
`Uniforms` registry is not under the given sources).  For every
registered uniform function, set `present` to whether its name literally
occurs in either source string — a textual scan, so occurrences inside
comments count. -/
def checkPresenceIn (fns : List (String × UniformFunctionM)) (vertSrc fragSrc : String) :
    List (String × UniformFunctionM) :=
  fns.map (fun kv => (kv.1, { kv.2 with present := occursIn kv.1 vertSrc || occursIn kv.1 fragSrc }))

/-- Map the arity of a numeric assignment to the GLSL type the registry
infers for it. -/
def typeForArity : Nat → String
  | 1 => "float"
  | 2 => "vec2"
  | 3 => "vec3"
  | 4 => "vec4"
  | _ => ""

/-- Parse every token as a float, failing if any is not numeric. -/
def parseAllFloats : List String → Option (List ℚ)
  | [] => some []
  | t :: rest =>
    match parseFloatQ t, parseAllFloats rest with
    | some v, some vs => some (v :: vs)
    | _, _ => none

/-- Modelled from the spec: `Uniforms::parseLine(line)` (not under the
given sources).  Split on the comma delimiter; the first token is the
uniform name; between one and four remaining numeric tokens create (or
overwrite) the entry with the matching vector arity, store the parsed
values and mark the entry changed.  A line that does not parse as a
numeric assignment is silently ignored.  The returned flag reports
whether an entry was written (it feeds the registry's own change flag). -/
def parseLine (m : List (String × UniformDataM)) (line : String) :
    List (String × UniformDataM) × Bool :=
  match splitComma line with
  | [] => (m, false)
  | _ :: [] => (m, false)
  | name :: rest =>
    if rest.length ≤ 4 then
      match parseAllFloats rest with
      | some vs =>
        (mapUpdate name (fun _ => { utype := typeForArity vs.length, values := vs, change := true }) m,
         true)
      | none => (m, false)
    else (m, false)

/-- External collaborators of the engine, modelled from the spec: the
filesystem (`loadFromPath` flattening includes and collecting dependency
paths, returning failure when the primary file is unreadable; `stat`
modification times), the pass-count and post-processing marker scans of
`tools/text.cpp` (`count_buffers`, `check_for_postprocessing`), and the
window-size queries of the graphics backend. -/
structure Env where
  fsLoad : String → Option (String × List String)
  countBuffers : String → Nat
  checkPostprocessing : String → Bool
  statTime : String → Int
  winW : Nat
  winH : Nat

/-! ## Sandbox state (`sandbox.cpp`) -/

/-- Fixed built-in vertex stage used for buffer and post-processing
passes (`billboard_vert` of `shaders/default.h`, an external shader
string). -/
def billboard_vert : String := "<billboard_vert>"

/-- Built-in FXAA fragment source (`fxaa_frag` of `shaders/fxaa.h`). -/
def fxaa_frag : String := "<fxaa_frag>"

/-- The state of the `Sandbox` object, projected onto the members the
claims observe.  Graphics-API handles, the scene graph, textures and
lights are collaborators whose internals stay outside the model; the
scene's and the uniform registry's own dirty flags are kept as the two
booleans their `haveChange()` accessors report. -/
structure SandboxM where
  frag_index : Int := -1
  vert_index : Int := -1
  geom_index : Int := -1
  fxaa : Bool := false
  cursor : Bool := true
  frag_source : String := ""
  vert_source : String := ""
  frag_dependencies : List String := []
  vert_dependencies : List String := []
  buffers : List FboM := []
  buffers_shaders : List ShaderM := []
  buffers_total : Nat := 0
  postprocessing : Bool := false
  postprocessing_shader : ShaderM := {}
  canvas_shader : ShaderM := {}
  scene_shader : ShaderM := {}
  scene_fbo : FboM := {}
  record_fbo : FboM := {}
  record : Bool := false
  record_fdelta : ℚ := 1 / 24
  record_start : ℚ := 0
  record_head : ℚ := 0
  record_end : ℚ := 0
  record_counter : Nat := 0
  histogram : Bool := false
  showPasses : Bool := false
  showTextures : Bool := false
  change : Bool := true
  sceneChange : Bool := false
  functions : List (String × UniformFunctionM) := []
  dataUniforms : List (String × UniformDataM) := []
  uniformsChange : Bool := false
  cubemap : Bool := false
  screenshotFile : String := ""
  initialized : Bool := false
  frame : Nat := 0
deriving DecidableEq, Repr

/-- `Sandbox::flagChange`. -/
def SandboxM.flagChange (sb : SandboxM) : SandboxM :=
  { sb with change := true }

/-- `Sandbox::unflagChange`: clear the explicit flag and delegate to the
scene and uniform sub-owners. -/
def SandboxM.unflagChange (sb : SandboxM) : SandboxM :=
  { sb with change := false, sceneChange := false, uniformsChange := false }

/-- `Sandbox::haveChange`: the dirty predicate the render loop consults. -/
def SandboxM.haveChange (sb : SandboxM) : Bool :=
  sb.change || sb.record || sb.screenshotFile != "" || sb.sceneChange || sb.uniformsChange

/-- `Sandbox::record(start, end, fps)`. -/
def SandboxM.startRecord (sb : SandboxM) (s e fps : ℚ) : SandboxM :=
  { sb with record_fdelta := 1 / fps, record_start := s, record_head := s,
            record_end := e, record_counter := 0, record := true }

/-- `Sandbox::addDefine(define, value)`: forward to every buffer-pass
shader (bounded by `m_buffers_total`), to the canvas or scene shader, and
to the post-processing shader. -/
def SandboxM.addDefineAll (sb : SandboxM) (k v : String) : SandboxM :=
  { sb with
    buffers_shaders := sb.buffers_shaders.mapIdx
      (fun i sh => if i < sb.buffers_total then sh.addDefine k v else sh),
    canvas_shader := if sb.geom_index = -1 then sb.canvas_shader.addDefine k v else sb.canvas_shader,
    scene_shader := if sb.geom_index = -1 then sb.scene_shader else sb.scene_shader.addDefine k v,
    postprocessing_shader := sb.postprocessing_shader.addDefine k v }

/-- `Sandbox::delDefine(define)`. -/
def SandboxM.delDefineAll (sb : SandboxM) (k : String) : SandboxM :=
  { sb with
    buffers_shaders := sb.buffers_shaders.mapIdx
      (fun i sh => if i < sb.buffers_total then sh.delDefine k else sh),
    canvas_shader := if sb.geom_index = -1 then sb.canvas_shader.delDefine k else sb.canvas_shader,
    scene_shader := if sb.geom_index = -1 then sb.scene_shader else sb.scene_shader.delDefine k,
    postprocessing_shader := sb.postprocessing_shader.delDefine k }

/-! ## Reload/Reconfigure engine -/

/-- Modelled from the spec: `merge(fragDeps, vertDeps)` of `tools/text.h`
(not under the given sources) combines the two collected dependency lists
into one list of dependency paths. -/
def mergeLists (a b : List String) : List String :=
  a ++ b.filter (fun p => ¬ a.contains p)

/-- Build a freshly-statted dependency entry for a collected include
path. -/
def mkDepFile (env : Env) (p : String) : WatchFile :=
  { type := FileType.GLSL_DEPENDENCY, path := p, lastChange := env.statTime p }

/-- The dependency-replacement step of `Sandbox::reloadShaders`: the
downward erase loop removes exactly the entries of kind
`GLSL_DEPENDENCY`, preserving the order of the others, and one
freshly-statted entry per newly collected dependency path is appended. -/
def replaceDependencies (env : Env) (files : List WatchFile) (newDeps : List String) :
    List WatchFile :=
  files.filter (fun f => f.type ≠ FileType.GLSL_DEPENDENCY) ++ newDeps.map (mkDepFile env)

/-- The pass-identifying define injected into the shader of buffer pass
`i`. -/
def bufferDefine (i : Nat) : String :=
  "BUFFER_" ++ toString i

/-- Recompile the buffer-pass shader at index `i` against the current
fragment source (the body of both loops of `Sandbox::_updateBuffers`). -/
def recompilePass (fragSource : String) (i : Nat) (sh : ShaderM) : ShaderM :=
  (sh.addDefine (bufferDefine i) "").load fragSource billboard_vert

/-- `Sandbox::_updateBuffers`: if the counted pass total differs from the
allocated framebuffer count, discard and reallocate both the framebuffer
array and the per-pass shader array to the new count, compiling each new
pass with its `BUFFER_<i>` define; otherwise recompile every existing
pass shader in place. -/
def updateBuffers (env : Env) (sb : SandboxM) : SandboxM :=
  if sb.buffers_total ≠ sb.buffers.length then
    { sb with
      buffers := (List.range sb.buffers_total).map
        (fun _ => { allocated := true, width := env.winW, height := env.winH,
                    ftype := FboType.COLOR_TEXTURE }),
      buffers_shaders := (List.range sb.buffers_total).map
        (fun i => recompilePass sb.frag_source i {}) }
  else
    { sb with buffers_shaders := sb.buffers_shaders.mapIdx (recompilePass sb.frag_source) }

/-- First half of `Sandbox::reloadShaders`, up to and including the
`m_buffers_total = count_buffers(...)` assignment: raise the change
flag, recompile the main program (2D canvas or 3D scene materials), swap
the dependency entries of the Watch Registry, recompute uniform
presence, flag all user uniforms changed, inject the cubemap defines,
and store the freshly counted buffer-pass total. -/
def reloadShadersA (env : Env) (files : List WatchFile) (sb : SandboxM) :
    List WatchFile × SandboxM :=
  let sb := sb.flagChange
  -- reload the 2D canvas program, or the scene material shaders
  let sb :=
    if sb.geom_index = -1 then
      { sb with canvas_shader := sb.canvas_shader.load sb.frag_source sb.vert_source }
    else
      { sb with scene_shader := sb.scene_shader.load sb.frag_source sb.vert_source }
  -- update shader dependencies in the Watch Registry
  let files := replaceDependencies env files (mergeLists sb.frag_dependencies sb.vert_dependencies)
  -- update uniforms: recompute presence, flag user uniforms changed
  let sb := { sb with
    functions := checkPresenceIn sb.functions sb.vert_source sb.frag_source,
    dataUniforms := sb.dataUniforms.map
      (fun (kv : String × UniformDataM) => (kv.1, { kv.2 with change := true })),
    uniformsChange := true }
  let sb :=
    if sb.cubemap then
      (sb.addDefineAll "SCENE_SH_ARRAY" "u_SH").addDefineAll "SCENE_CUBEMAP" "u_cubeMap"
    else sb
  -- update buffer passes: recount the pass markers
  (files, { sb with buffers_total := env.countBuffers sb.frag_source })

/-- Tail of `Sandbox::reloadShaders`, after `_updateBuffers`: derive the
post-processing requirement (user marker, else the FXAA fallback) and
reconcile the scene framebuffer with the depth-sampling requirement. -/
def reloadShadersB (env : Env) (sb : SandboxM) : SandboxM :=
  let havePostprocessing := env.checkPostprocessing sb.frag_source
  let sb :=
    if havePostprocessing then
      { sb with
        postprocessing_shader :=
          (sb.postprocessing_shader.addDefine "POSTPROCESSING" "").load sb.frag_source billboard_vert,
        postprocessing := true }
    else if sb.fxaa then
      { sb with
        postprocessing_shader := sb.postprocessing_shader.load fxaa_frag billboard_vert,
        functions := mapUpdate "u_scene" (fun f => { f with present := true }) sb.functions,
        postprocessing := true }
    else
      { sb with postprocessing := false }
  -- reconcile the scene framebuffer layout with the depth requirement
  if sb.postprocessing || sb.histogram then
    let t := if (mapFind "u_sceneDepth" sb.functions).elim false (fun f => f.present)
             then FboType.COLOR_DEPTH_TEXTURES else FboType.COLOR_TEXTURE_DEPTH_BUFFER
    if !sb.scene_fbo.allocated || !(sb.scene_fbo.ftype == t) then
      { sb with scene_fbo := { allocated := true, width := env.winW, height := env.winH, ftype := t } }
    else sb
  else sb

/-- `Sandbox::reloadShaders`: the first half, then `_updateBuffers`,
then the post-processing tail. -/
def reloadShaders (env : Env) (files : List WatchFile) (sb : SandboxM) :
    List WatchFile × SandboxM :=
  let a := reloadShadersA env files sb
  (a.1, reloadShadersB env (updateBuffers env a.2))

/-- Path of the registry entry a primary-shader index points at (used by
the dependency reroute of `onFileChange`). -/
def pathAt (files : List WatchFile) (i : Int) : String :=
  if h : 0 ≤ i ∧ i.toNat < files.length then (files.get ⟨i.toNat, h.2⟩).path else ""

/-- `Sandbox::onFileChange`: reroute dependency changes to the primary
shader that includes them, re-read the changed primary source (clearing
the stored source and dependency list first), and run `reloadShaders`
only when the read succeeds.  Image and cubemap changes reload picture
objects outside the modelled state.  The change flag is raised in every
path. -/
def onFileChange (env : Env) (files : List WatchFile) (index : Nat) (sb : SandboxM) :
    List WatchFile × SandboxM :=
  match files.get? index with
  | none => (files, sb.flagChange)
  | some entry =>
    let tyfn : FileType × String :=
      if entry.type = FileType.GLSL_DEPENDENCY then
        if sb.frag_dependencies.contains entry.path then
          (FileType.FRAG_SHADER, pathAt files sb.frag_index)
        else if sb.vert_dependencies.contains entry.path then
          (FileType.VERT_SHADER, pathAt files sb.vert_index)
        else (entry.type, entry.path)
      else (entry.type, entry.path)
    if tyfn.1 = FileType.FRAG_SHADER then
      let sb := { sb with frag_source := "", frag_dependencies := [] }
      match env.fsLoad tyfn.2 with
      | some (src, deps) =>
        let sb := { sb with frag_source := src, frag_dependencies := deps }
        let (files', sb') := reloadShaders env files sb
        (files', sb'.flagChange)
      | none => (files, sb.flagChange)
    else if tyfn.1 = FileType.VERT_SHADER then
      let sb := { sb with vert_source := "", vert_dependencies := [] }
      match env.fsLoad tyfn.2 with
      | some (src, deps) =>
        let sb := { sb with vert_source := src, vert_dependencies := deps }
        let (files', sb') := reloadShaders env files sb
        (files', sb'.flagChange)
      | none => (files, sb.flagChange)
    else
      (files, sb.flagChange)

/-- Observable effect of `Sandbox::render()` on the tracked state: lazy
allocation of the record and scene framebuffers.  Draw calls act on the
graphics backend only. -/
def renderFrame (env : Env) (sb : SandboxM) : SandboxM :=
  let sb :=
    if (sb.screenshotFile != "" || sb.record) && ¬ sb.record_fbo.allocated then
      { sb with record_fbo := { allocated := true, width := env.winW, height := env.winH,
                                ftype := FboType.COLOR_TEXTURE_DEPTH_BUFFER } }
    else sb
  if (sb.postprocessing || sb.histogram) && ¬ sb.scene_fbo.allocated then
    let t := if (mapFind "u_sceneDepth" sb.functions).elim false (fun f => f.present)
             then FboType.COLOR_DEPTH_TEXTURES else FboType.COLOR_TEXTURE_DEPTH_BUFFER
    { sb with scene_fbo := { allocated := true, width := env.winW, height := env.winH, ftype := t } }
  else sb

/-- `Sandbox::renderDone`: advance a pending recording by one frame (the
record head moves and the recording stops once it reaches the end), or
complete a pending screenshot (its path is consumed), bump the frame
counter and clear all dirty flags; the very first frame re-raises the
change flag after initialization. -/
def renderDone (sb : SandboxM) : SandboxM :=
  let sb :=
    if sb.record then
      -- onScreenshot(<counter>.png) writes the frame to disk
      let sb := { sb with record_head := sb.record_head + sb.record_fdelta,
                          record_counter := sb.record_counter + 1 }
      if sb.record_head ≥ sb.record_end then { sb with record := false } else sb
    else if sb.screenshotFile != "" then
      -- onScreenshot(screenshotFile) writes the frame to disk
      { sb with screenshotFile := "" }
    else sb
  let sb := { sb with frame := sb.frame + 1 }
  let sb := sb.unflagChange
  if ¬ sb.initialized then
    { sb with initialized := true, change := true }
  else sb

/-! ## The shared changed-file slot (`fileChanged`)

The watcher thread, the render thread and the explicit reload command
communicate through a single integer slot guarded by `filesMutex`.  The
mutex-guarded accesses are modelled as atomic transitions of an
interleaved event system. -/

/-- The state shared between the watcher and the render thread: the
Watch Registry and the changed-file slot. -/
structure WatchState where
  files : List WatchFile
  fileChanged : Int
deriving DecidableEq, Repr

/-- The atomic transitions touching the shared slot:
`sweepCheck i date` is one iteration of the watcher loop body observing
modification time `date` for entry `i`; `consume newFiles` is the render
thread consuming the pending change (running `onFileChange`, which may
rewrite the registry, and then resetting the slot); `reloadIndex i` is
the explicit reload command publishing index `i` of the registry it is
walking. -/
inductive WEvent where
  | sweepCheck (i : Nat) (date : Int)
  | consume (newFiles : List WatchFile)
  | reloadIndex (i : Nat)
deriving DecidableEq, Repr

/-- One atomic transition.  The watcher body checks `fileChanged == -1`
before statting; on a differing date it stores the new time and
publishes the index.  The reload command's loop bound keeps its indices
inside the registry it walks. -/
def wstep (s : WatchState) (e : WEvent) : WatchState :=
  match e with
  | WEvent.sweepCheck i date =>
    if s.fileChanged = -1 then
      match s.files.get? i with
      | some f =>
        if date ≠ f.lastChange then
          { files := s.files.set i { f with lastChange := date }, fileChanged := (i : Int) }
        else s
      | none => s
    else s
  | WEvent.consume newFiles => { files := newFiles, fileChanged := -1 }
  | WEvent.reloadIndex i =>
    if i < s.files.length then { s with fileChanged := (i : Int) } else s

/-- A run of the event system from a starting state. -/
def wrun (s : WatchState) (es : List WEvent) : WatchState :=
  es.foldl wstep s

/-- The ChangedSlot invariant: the slot is `-1` or a single valid index
into the registry. -/
def slotOk (s : WatchState) : Prop :=
  s.fileChanged = -1 ∨ (0 ≤ s.fileChanged ∧ s.fileChanged < (s.files.length : Int))

instance (s : WatchState) : Decidable (slotOk s) := by
  unfold slotOk; infer_instance

/-! ## Watch Registry reachability (for the dependency-replacement step) -/

/-- The watcher's in-place timestamp refresh of entry `i`. -/
def touchTimestamp (fs : List WatchFile) (i : Nat) (d : Int) : List WatchFile :=
  match fs.get? i with
  | some f => fs.set i { f with lastChange := d }
  | none => fs

/-- The registry states the program constructs: the argument-parsing
phase pushes only primary shaders, geometry, images and cubemaps (never
a dependency entry); afterwards the registry changes only through the
dependency-replacement step of a reload and through the watcher's
timestamp refreshes. -/
inductive RegistryReachable (env : Env) : List WatchFile → Prop where
  | start : ∀ fs : List WatchFile,
      (∀ f ∈ fs, f.type ≠ FileType.GLSL_DEPENDENCY) → RegistryReachable env fs
  | reload : ∀ fs deps, RegistryReachable env fs →
      RegistryReachable env (replaceDependencies env fs deps)
  | touch : ∀ fs i d, RegistryReachable env fs →
      RegistryReachable env (touchTimestamp fs i d)

/-- Shape invariant of reachable registries: every entry of kind
`GLSL_DEPENDENCY` sits after every entry of any other kind. -/
def depsAtTail (fs : List WatchFile) : Prop :=
  ∃ a b : List WatchFile, fs = a ++ b ∧
    (∀ f ∈ a, f.type ≠ FileType.GLSL_DEPENDENCY) ∧
    (∀ f ∈ b, f.type = FileType.GLSL_DEPENDENCY)

theorem set_append_of_lt {α : Type} (a b : List α) (i : Nat) (x : α) (h : i < a.length) :
    (a ++ b).set i x = a.set i x ++ b := by
  induction a generalizing i with
  | nil => simp at h
  | cons hd tl ih =>
    cases i with
    | zero => simp
    | succ n =>
      simp only [List.cons_append, List.set, List.append_eq]
      rw [ih n (by simpa using h)]

theorem set_append_of_ge {α : Type} (a b : List α) (i : Nat) (x : α) (h : a.length ≤ i) :
    (a ++ b).set i x = a ++ b.set (i - a.length) x := by
  induction a generalizing i with
  | nil => simp
  | cons hd tl ih =>
    cases i with
    | zero => simp at h
    | succ n =>
      simp only [List.cons_append, List.set, List.append_eq]
      rw [ih n (by simpa using h)]
      simp [Nat.succ_sub_one]

theorem depsAtTail_touch (fs : List WatchFile) (i : Nat) (d : Int)
    (h : depsAtTail fs) : depsAtTail (touchTimestamp fs i d) := by
  obtain ⟨a, b, rfl, ha, hb⟩ := h
  unfold touchTimestamp
  cases hg : (a ++ b).get? i with
  | none => exact ⟨a, b, rfl, ha, hb⟩
  | some f =>
    have hlen : i < a.length + b.length := by
      have := List.get?_eq_some.mp hg
      simpa using this.1
    by_cases hia : i < a.length
    · refine ⟨a.set i { f with lastChange := d }, b, ?_, ?_, hb⟩
      · exact set_append_of_lt a b i _ hia
      · intro g hg2
        rcases List.mem_or_eq_of_mem_set hg2 with hmem | rfl
        · exact ha g hmem
        · have hf : f ∈ a ++ b := List.get?_mem hg
          rcases List.mem_append.mp hf with hfa | hfb
          · exact ha f hfa
          · -- f sits in the dependency tail, yet its index is below a.length
            have : (a ++ b).get? i = a.get? i := List.get?_append hia
            rw [this] at hg
            exact ha f (List.get?_mem hg)
    · refine ⟨a, b.set (i - a.length) { f with lastChange := d }, ?_, ha, ?_⟩
      · exact set_append_of_ge a b i _ (Nat.le_of_not_lt hia)
      · intro g hg2
        rcases List.mem_or_eq_of_mem_set hg2 with hmem | rfl
        · exact hb g hmem
        · have hf : f ∈ a ++ b := List.get?_mem hg
          rcases List.mem_append.mp hf with hfa | hfb
          · have hi' : a.length ≤ i := Nat.le_of_not_lt hia
            have : (a ++ b).get? i = b.get? (i - a.length) := by
              rw [List.get?_append_right hi']
            rw [this] at hg
            exact hb f (List.get?_mem hg)
          · exact hb f hfb

theorem depsAtTail_replace (env : Env) (fs : List WatchFile) (deps : List String)
    (h : depsAtTail fs) : depsAtTail (replaceDependencies env fs deps) := by
  obtain ⟨a, b, rfl, ha, hb⟩ := h
  refine ⟨a, deps.map (mkDepFile env), ?_, ha, ?_⟩
  · unfold replaceDependencies
    congr 1
    rw [List.filter_append]
    have hfa : a.filter (fun f => f.type ≠ FileType.GLSL_DEPENDENCY) = a := by
      apply List.filter_eq_self.mpr
      intro f hf
      simpa using ha f hf
    have hfb : b.filter (fun f => f.type ≠ FileType.GLSL_DEPENDENCY) = [] := by
      apply List.filter_eq_nil.mpr
      intro f hf
      simpa using hb f hf
    rw [hfa, hfb, List.append_nil]
  · intro g hg
    rcases List.mem_map.mp hg with ⟨p, _, rfl⟩
    rfl

theorem depsAtTail_of_reachable (env : Env) (fs : List WatchFile)
    (h : RegistryReachable env fs) : depsAtTail fs := by
  induction h with
  | start fs h0 => exact ⟨fs, [], by simp, h0, by simp⟩
  | reload fs deps _ ih => exact depsAtTail_replace env fs deps ih
  | touch fs i d _ ih => exact depsAtTail_touch fs i d ih

/-! ## Main translation unit: global state, command registry, render loop

One interleaved-atomic state bundles the globals of the main file
(`bRun`, `timeOut`, `fullFps`, `fileChanged`, `files`, `outputFile`) with
the `Sandbox`.  Command handlers and loop iterations are modelled as
atomic state transformations; printing goes to the output stream and is
not part of the state. -/

/-- The global state of the process as the claims observe it.
`framesRendered` is an observation counter: it increments exactly when a
loop iteration draws (render, renderUI, renderDone) instead of skipping. -/
structure MainState where
  sandbox : SandboxM := {}
  bRun : Bool := true
  timeOut : Bool := false
  fullFps : Bool := false
  fileChanged : Int := -1
  files : List WatchFile := []
  outputFile : String := ""
  timeLimit : ℚ := -1
  framesRendered : Nat := 0
deriving DecidableEq, Repr

/-- A registered console command (`Command`): its match token, handler,
help text and whether the handler runs under the console mutex. -/
structure CommandM where
  begins_with : String
  exec : MainState → String → Bool × MainState
  description : String := ""
  useMutex : Bool := true

/-- The publishing loop of the `reload`/`reload,all` handler: walk the
registry and store each index into the changed-file slot in turn (with a
sleep between stores, during which the render thread may consume; in
this sequential model the stores simply happen in order). -/
def publishAll (s : MainState) : MainState :=
  (List.range s.files.length).foldl (fun t (i : Nat) => { t with fileChanged := (i : Int) }) s

/-- Space-splitting used by the `define,` handler. -/
def splitSpace (s : String) : List String :=
  splitListAux ' ' s.data []

/-- Handler shape shared by the pure query commands (`version`,
`window_width`, …, `files`, `defines`, `lights`): when the line equals
the bare token they print and report handled, otherwise they fall
through unhandled; no modelled state changes either way. -/
def queryExec (token : String) : MainState → String → Bool × MainState :=
  fun s line => (line == token, s)

/-- Handler shape of the light/camera accessor commands: every branch
(set with the right arity, indexed set, or the printing fallback) reports
handled; the stores touch lights and camera objects outside the modelled
state. -/
def alwaysHandledExec : MainState → String → Bool × MainState :=
  fun s _ => (true, s)

/-- The commands declared by `declareCommands()` in the main file, in
registration order. -/
def mainCommands : List CommandM := [
  { begins_with := "help", exec := queryExec "help", useMutex := false },
  { begins_with := "version", exec := queryExec "version", useMutex := false },
  { begins_with := "window_width", exec := queryExec "window_width", useMutex := false },
  { begins_with := "window_height", exec := queryExec "window_height", useMutex := false },
  { begins_with := "pixel_density", exec := queryExec "pixel_density", useMutex := false },
  { begins_with := "screen_size", exec := queryExec "screen_size", useMutex := false },
  { begins_with := "viewport", exec := queryExec "viewport", useMutex := false },
  { begins_with := "mouse", exec := queryExec "mouse", useMutex := false },
  { begins_with := "fps", exec := queryExec "fps", useMutex := false },
  { begins_with := "delta", exec := queryExec "delta", useMutex := false },
  { begins_with := "time", exec := queryExec "time", useMutex := false },
  { begins_with := "date", exec := queryExec "date", useMutex := false },
  { begins_with := "files", exec := queryExec "files", useMutex := false },
  { begins_with := "reload", exec := fun s line =>
      if line == "reload" || line == "reload,all" then
        -- publish every index with full FPS forced for the duration,
        -- then unconditionally drop back out of full-FPS mode
        let s1 := publishAll { s with fullFps := true }
        (true, { s1 with fullFps := false })
      else
        match splitComma line with
        | [a, b] =>
          if a == "reload" then
            match s.files.findIdx? (fun f => f.path == b) with
            | some i => (true, { s with fileChanged := (i : Int) })
            | none => (false, s)
          else (false, s)
        | _ => (false, s),
    useMutex := false },
  { begins_with := "frag", exec := fun s line =>
      -- printing the source, one line, or writing it to a file
      (line == "frag" || (splitComma line).length == 2, s),
    useMutex := false },
  { begins_with := "vert", exec := fun s line =>
      (line == "vert" || (splitComma line).length == 2, s),
    useMutex := false },
  { begins_with := "dependencies", exec := fun s line =>
      (line == "dependencies" || line == "dependencies,frag" || line == "dependencies,vert", s),
    useMutex := false },
  { begins_with := "update", exec := fun s line =>
      (false, if line == "update" then { s with sandbox := s.sandbox.flagChange } else s),
    useMutex := false },
  { begins_with := "wait", exec := fun s _ => (false, s) },
  { begins_with := "fullFps", exec := fun s line =>
      if line == "fullFps" then (true, s)
      else
        match splitComma line with
        | [_, v] => (false, { s with fullFps := v == "on" })
        | _ => (false, s),
    useMutex := false },
  { begins_with := "cursor", exec := fun s line =>
      if line == "cursor" then (true, s)
      else
        match splitComma line with
        | [_, v] => (false, { s with sandbox := { s.sandbox with cursor := v == "on" } })
        | _ => (false, s),
    useMutex := false },
  { begins_with := "screenshot", exec := fun s line =>
      if line == "screenshot" && s.outputFile != "" then
        (true, { s with sandbox := { s.sandbox with screenshotFile := s.outputFile } })
      else
        match splitComma line with
        | [_, v] => (true, { s with sandbox := { s.sandbox with screenshotFile := v } })
        | _ => (false, s),
    useMutex := false },
  { begins_with := "sequence", exec := fun s line =>
      match splitComma line with
      | _ :: a :: b :: rest =>
        if rest.length ≤ 1 then
          let f0 := (parseFloatQ a).getD 0
          let t0 := (parseFloatQ b).getD 0
          let fps := match rest with
            | [c] => (parseFloatQ c).getD 0
            | _ => 24
          let f1 := if f0 ≥ t0 then 0 else f0
          -- the handler then polls getRecordedPorcentage() until done,
          -- reading (never writing) the shared state
          (true, { s with sandbox := s.sandbox.startRecord f1 t0 fps })
        else (true, { s with sandbox := s.sandbox.startRecord ((parseFloatQ a).getD 0) ((parseFloatQ b).getD 0) 24 })
      | _ => (false, s),
    useMutex := false },
  { begins_with := "q", exec := fun s line =>
      if line == "q" then (true, { s with bRun := false }) else (false, s),
    useMutex := false },
  { begins_with := "quit", exec := fun s line =>
      if line == "quit" then (true, { s with timeOut := true }) else (false, s),
    useMutex := false },
  { begins_with := "exit", exec := fun s line =>
      if line == "exit" then (true, { s with timeOut := true }) else (false, s),
    useMutex := false }]

/-- The commands pushed by `Sandbox::setup`, in registration order.  The
light and camera handlers mutate lights/camera objects outside the
modelled state and report handled in every branch. -/
def sandboxCommands : List CommandM := [
  { begins_with := "debug", exec := fun s line =>
      if line == "debug" then (true, s)
      else
        match splitComma line with
        | [_, v] =>
          (false, { s with sandbox := { s.sandbox with
            showPasses := v == "on", showTextures := v == "on", histogram := v == "on" } })
        | _ => (false, s),
    useMutex := false },
  { begins_with := "histogram", exec := fun s line =>
      if line == "histogram" then (true, s)
      else
        match splitComma line with
        | [_, v] => (false, { s with sandbox := { s.sandbox with histogram := v == "on" } })
        | _ => (false, s),
    useMutex := false },
  { begins_with := "defines", exec := queryExec "defines", useMutex := false },
  { begins_with := "define,", exec := fun s line =>
      match splitComma line with
      | [_, kv] =>
        let v := splitSpace kv
        (true, { s with sandbox := s.sandbox.addDefineAll (v.headD "") ((v.drop 1).headD "") })
      | [_, k, v] => (true, { s with sandbox := s.sandbox.addDefineAll k v })
      | _ => (false, s),
    useMutex := false },
  { begins_with := "undefine,", exec := fun s line =>
      match splitComma line with
      | [_, k] => (true, { s with sandbox := s.sandbox.delDefineAll k })
      | _ => (false, s),
    useMutex := false },
  { begins_with := "uniforms", exec := fun s _ => (true, s), useMutex := false },
  { begins_with := "textures", exec := fun s line =>
      if line == "textures" then (true, s)
      else
        match splitComma line with
        | [_, v] => (false, { s with sandbox := { s.sandbox with showTextures := v == "on" } })
        | _ => (false, s),
    useMutex := false },
  { begins_with := "buffers", exec := fun s line =>
      if line == "buffers" then (true, s)
      else
        match splitComma line with
        | [_, v] => (false, { s with sandbox := { s.sandbox with showPasses := v == "on" } })
        | _ => (false, s),
    useMutex := false },
  { begins_with := "lights", exec := queryExec "lights" },
  { begins_with := "light_position", exec := alwaysHandledExec },
  { begins_with := "light_color", exec := alwaysHandledExec },
  { begins_with := "light_falloff", exec := alwaysHandledExec },
  { begins_with := "light_intensity", exec := alwaysHandledExec },
  { begins_with := "camera_distance", exec := alwaysHandledExec },
  { begins_with := "camera_fov", exec := alwaysHandledExec },
  { begins_with := "camera_position", exec := alwaysHandledExec },
  { begins_with := "camera_exposure", exec := alwaysHandledExec }]

/-- The full command registry: `declareCommands()` runs first, then
`Sandbox::setup` appends its commands. -/
def commandsList : List CommandM :=
  mainCommands ++ sandboxCommands

/-- The search loop of `runCmd`: try commands in registration order,
invoke every handler whose match token is a prefix of the line, and stop
at the first handler that reports the line handled. -/
def runCmdList : List CommandM → String → MainState → Bool × MainState
  | [], _, s => (false, s)
  | c :: rest, line, s =>
    if beginsWith line c.begins_with then
      let r := c.exec s line
      if r.1 then (true, r.2) else runCmdList rest line r.2
    else runCmdList rest line s

/-- `runCmd(cmd, mutex)`: dispatch through the registry; when no command
resolves the line, delegate it to the uniform registry's line parser. -/
def runCmd (line : String) (s : MainState) : MainState :=
  let r := runCmdList commandsList line s
  if r.1 then r.2
  else
    let pl := parseLine r.2.sandbox.dataUniforms line
    { r.2 with sandbox := { r.2.sandbox with
        dataUniforms := pl.1,
        uniformsChange := r.2.sandbox.uniformsChange || pl.2 } }

/-- One iteration of the render loop body (the `while (isGL() && bRun)`
loop): raise the time-limit timeout, consume at most one pending file
change, skip the frame when nothing changed and no uncapped mode or
timeout forces it, otherwise draw; with a timeout pending and no
screenshot left to finish, clear the running flag instead of swapping
buffers. -/
def loopIter (env : Env) (timeNow : ℚ) (s : MainState) : MainState :=
  let s :=
    if s.timeLimit ≥ 0 ∧ timeNow ≥ s.timeLimit then
      { s with timeOut := true, sandbox := { s.sandbox with screenshotFile := s.outputFile } }
    else s
  let s :=
    if s.fileChanged ≠ -1 then
      let fc := onFileChange env s.files s.fileChanged.toNat s.sandbox
      { s with files := fc.1, sandbox := fc.2, fileChanged := -1 }
    else s
  if ¬ s.timeOut ∧ ¬ s.fullFps ∧ ¬ s.sandbox.haveChange then
    s
  else
    let s := { s with sandbox := renderDone (renderFrame env s.sandbox),
                      framesRendered := s.framesRendered + 1 }
    if s.timeOut && s.sandbox.screenshotFile == "" then { s with bRun := false } else s

/-- Fuelled render loop: iterate the loop body while the running flag
holds. -/
def runLoop (env : Env) (timeNow : ℚ) : Nat → MainState → MainState
  | 0, s => s
  | n + 1, s => if s.bRun then runLoop env timeNow n (loopIter env timeNow s) else s

/-! ## Concrete sample environments and states used by witnesses -/

/-- A concrete external environment: every file read fails, the marker
scans find nothing, all stat times are zero, the window is 500 by 500
(the default window size of the main file). -/
def envTriv : Env :=
  { fsLoad := fun _ => none, countBuffers := fun _ => 0,
    checkPostprocessing := fun _ => false, statTime := fun _ => 0,
    winW := 500, winH := 500 }

/-- A sample primary fragment-shader registry entry. -/
def sampleFrag : WatchFile :=
  { type := FileType.FRAG_SHADER, path := "shader.frag", lastChange := 7 }

/-! ## Helper lemmas -/

theorem foldl_publish_fullFps (l : List Nat) (t : MainState) :
    (l.foldl (fun t i => { t with fileChanged := (i : Int) }) t).fullFps = t.fullFps := by
  induction l generalizing t with
  | nil => rfl
  | cons a l ih => exact ih { t with fileChanged := (a : Int) }

theorem publishAll_fullFps (t : MainState) : (publishAll t).fullFps = t.fullFps := by
  unfold publishAll
  exact foldl_publish_fullFps _ t

/-! ## Claim theorems -/

/-- C7: `haveChange()` returns exactly the boolean OR of the five
DirtyState components (explicit change flag, recording active, pending
screenshot path non-empty, scene-subsystem dirty, uniforms-subsystem
dirty), and — in a loop iteration with no pending file change and no
`-s` time limit — the render loop skips the frame exactly when that
predicate is false and neither the full-FPS mode nor the timeout state
is set. -/
theorem haveChange_is_dirty_or_and_loop_skips_exactly (env : Env) (timeNow : ℚ)
    (s : MainState) (h1 : s.fileChanged = -1) (h2 : s.timeLimit < 0) :
    (s.sandbox.haveChange =
      (s.sandbox.change || s.sandbox.record || (s.sandbox.screenshotFile != "")
        || s.sandbox.sceneChange || s.sandbox.uniformsChange)) ∧
    ((loopIter env timeNow s).framesRendered = s.framesRendered ↔
      (s.timeOut = false ∧ s.fullFps = false ∧ s.sandbox.haveChange = false)) := by
  refine ⟨rfl, ?_⟩
  have ht : ¬(s.timeLimit ≥ 0 ∧ timeNow ≥ s.timeLimit) := fun hc => absurd hc.1 (not_le.mpr h2)
  have hf : ¬(s.fileChanged ≠ -1) := by simpa using h1
  simp only [loopIter]
  rw [if_neg ht, if_neg hf]
  by_cases hs : (¬ s.timeOut ∧ ¬ s.fullFps ∧ ¬ s.sandbox.haveChange)
  · rw [if_pos hs]
    simp only [Bool.not_eq_true] at hs
    simp [hs.1, hs.2.1, hs.2.2]
  · rw [if_neg hs]
    constructor
    · intro hEq
      exfalso
      split at hEq <;> simp at hEq
    · intro hc
      exact absurd ⟨by simp [hc.1], by simp [hc.2.1], by simp [hc.2.2]⟩ hs

/-- Witness for C7 at a concrete state: the default state has no pending
file change and a negative time limit; its dirty predicate is true (the
constructor raises the change flag) so the iteration renders. -/
theorem haveChange_is_dirty_or_witness :
    (({} : MainState).fileChanged = -1 ∧ ({} : MainState).timeLimit < 0) ∧
    ((({} : MainState).sandbox.haveChange =
      (({} : MainState).sandbox.change || ({} : MainState).sandbox.record
        || (({} : MainState).sandbox.screenshotFile != "")
        || ({} : MainState).sandbox.sceneChange || ({} : MainState).sandbox.uniformsChange)) ∧
    ((loopIter envTriv 0 ({} : MainState)).framesRendered = ({} : MainState).framesRendered ↔
      (({} : MainState).timeOut = false ∧ ({} : MainState).fullFps = false ∧
        ({} : MainState).sandbox.haveChange = false))) :=
  ⟨⟨by decide, by norm_num⟩,
   haveChange_is_dirty_or_and_loop_skips_exactly envTriv 0 {} (by decide) (by norm_num)⟩

/-- C9: the `reload` / `reload,all` handler forces the global full-FPS
flag on for the duration of the per-file publishing loop (which touches
only the changed-file slot) and then unconditionally clears it, so the
flag ends false whatever its prior value, including a user-enabled
full-FPS mode. -/
theorem reload_command_drops_fullFps (s : MainState) :
    runCmd "reload" s = { publishAll { s with fullFps := true } with fullFps := false } ∧
    runCmd "reload,all" s = { publishAll { s with fullFps := true } with fullFps := false } ∧
    (publishAll { s with fullFps := true }).fullFps = true ∧
    (runCmd "reload" s).fullFps = false ∧
    (runCmd "reload,all" s).fullFps = false := by
  refine ⟨rfl, rfl, ?_, rfl, rfl⟩
  rw [publishAll_fullFps]

theorem slotOk_wstep (s : WatchState) (e : WEvent) (h : slotOk s) : slotOk (wstep s e) := by
  cases e with
  | sweepCheck i date =>
    simp only [wstep]
    by_cases hc : s.fileChanged = -1
    · rw [if_pos hc]
      cases hg : s.files.get? i with
      | none => exact h
      | some f =>
        dsimp only
        by_cases hd : date ≠ f.lastChange
        · rw [if_pos hd]
          right
          have : i < s.files.length := by
            have := List.get?_eq_some.mp hg
            exact this.1
          constructor
          · exact Int.ofNat_nonneg i
          · simpa [List.length_set] using Int.ofNat_lt.mpr this
        · rw [if_neg hd]; exact h
    · rw [if_neg hc]; exact h
  | consume newFiles => left; rfl
  | reloadIndex i =>
    simp only [wstep]
    by_cases hc : i < s.files.length
    · rw [if_pos hc]
      right
      exact ⟨Int.ofNat_nonneg i, Int.ofNat_lt.mpr hc⟩
    · rw [if_neg hc]; exact h

/-- C3: the changed-file slot is always `-1` or a single valid registry
index; while a change is pending, a watcher sweep iteration is dropped
without storing anything (so no run of sweeps without an intervening
consume ever yields a second pending index); and the only transition
that resets the slot to `-1` is the render thread's consume. -/
theorem changed_slot_single_pending (s : WatchState) (h : slotOk s) :
    (∀ es : List WEvent, slotOk (wrun s es)) ∧
    (∀ (i : Nat) (d : Int), s.fileChanged ≠ -1 → wstep s (WEvent.sweepCheck i d) = s) ∧
    (∀ e : WEvent, (wstep s e).fileChanged = -1 →
      (∃ fs, e = WEvent.consume fs) ∨ s.fileChanged = -1) := by
  refine ⟨?_, ?_, ?_⟩
  · intro es
    induction es generalizing s with
    | nil => exact h
    | cons e es ih => exact ih (wstep s e) (slotOk_wstep s e h)
  · intro i d hns
    simp only [wstep]
    rw [if_neg hns]
  · intro e hres
    cases e with
    | sweepCheck i date =>
      right
      by_cases hc : s.fileChanged = -1
      · exact hc
      · simp only [wstep, if_neg hc] at hres
        exact hres
    | consume newFiles => exact Or.inl ⟨newFiles, rfl⟩
    | reloadIndex i =>
      right
      simp only [wstep] at hres
      by_cases hc : i < s.files.length
      · rw [if_pos hc] at hres
        simp at hres
      · rw [if_neg hc] at hres
        exact hres

/-- Witness for C3 at a concrete state with one watched file and an
empty slot. -/
theorem changed_slot_single_pending_witness :
    slotOk { files := [sampleFrag], fileChanged := -1 } ∧
    slotOk (wrun { files := [sampleFrag], fileChanged := -1 }
      [WEvent.sweepCheck 0 9, WEvent.sweepCheck 0 11, WEvent.consume [sampleFrag]]) :=
  ⟨by decide,
   (changed_slot_single_pending { files := [sampleFrag], fileChanged := -1 } (by decide)).1
     [WEvent.sweepCheck 0 9, WEvent.sweepCheck 0 11, WEvent.consume [sampleFrag]]⟩

theorem replace_of_split (env : Env) (a b : List WatchFile) (deps : List String)
    (ha : ∀ f ∈ a, f.type ≠ FileType.GLSL_DEPENDENCY)
    (hb : ∀ f ∈ b, f.type = FileType.GLSL_DEPENDENCY) :
    replaceDependencies env (a ++ b) deps = a ++ deps.map (mkDepFile env) := by
  unfold replaceDependencies
  congr 1
  rw [List.filter_append]
  have hfa : a.filter (fun f => f.type ≠ FileType.GLSL_DEPENDENCY) = a := by
    apply List.filter_eq_self.mpr
    intro f hf
    simpa using ha f hf
  have hfb : b.filter (fun f => f.type ≠ FileType.GLSL_DEPENDENCY) = [] := by
    apply List.filter_eq_nil.mpr
    intro f hf
    simpa using hb f hf
  rw [hfa, hfb, List.append_nil]

/-- C8: for every registry state the program constructs, the
dependency-replacement step of a reload (remove every `GLSL_DEPENDENCY`
entry, append one freshly-statted entry per newly collected dependency
path) leaves every entry of any other kind at its original index with
its original path, keeping the cached primary-shader indices valid. -/
theorem replace_dependencies_keeps_nondep_indices (env : Env) (fs : List WatchFile)
    (h : RegistryReachable env fs) (deps : List String) :
    ∀ (i : Nat) (hi : i < fs.length),
      (fs.get ⟨i, hi⟩).type ≠ FileType.GLSL_DEPENDENCY →
      (replaceDependencies env fs deps).get? i = some (fs.get ⟨i, hi⟩) := by
  obtain ⟨a, b, hsplit, ha, hb⟩ := depsAtTail_of_reachable env fs h
  subst hsplit
  intro i hi hty
  rw [replace_of_split env a b deps ha hb]
  have hia : i < a.length := by
    by_contra hge
    have hge2 : a.length ≤ i := Nat.le_of_not_lt hge
    apply hty
    have hget : (a ++ b).get ⟨i, hi⟩ ∈ b := by
      have : (a ++ b).get ⟨i, hi⟩ = b.get ⟨i - a.length, by
          have := hi; simp only [List.length_append] at this; omega⟩ := by
        apply List.get_append_right
        omega
      rw [this]
      exact List.get_mem _ _ _
    exact hb _ hget
  have h1 : (a ++ deps.map (mkDepFile env)).get? i = a.get? i :=
    List.get?_append hia
  have h2 : (a ++ b).get ⟨i, hi⟩ = a.get ⟨i, hia⟩ := by
    apply List.get_append
  rw [h1, h2]
  rw [List.get?_eq_get hia]

/-- Witness for C8: a reachable two-entry registry (primary fragment
shader, then one dependency appended by a previous reload); replacing
the dependencies keeps the primary entry at index 0. -/
theorem replace_dependencies_keeps_nondep_indices_witness :
    (replaceDependencies envTriv (replaceDependencies envTriv [sampleFrag] ["lib.glsl"])
        ["math.glsl", "noise.glsl"]).get? 0 = some sampleFrag :=
  replace_dependencies_keeps_nondep_indices envTriv
    (replaceDependencies envTriv [sampleFrag] ["lib.glsl"])
    (RegistryReachable.reload [sampleFrag] ["lib.glsl"]
      (RegistryReachable.start [sampleFrag] (by decide)))
    ["math.glsl", "noise.glsl"] 0 (by decide) (by decide)

theorem mapFind_mapUpdate_self {α : Type} [Inhabited α] (k : String) (f : α → α)
    (m : List (String × α)) :
    mapFind k (mapUpdate k f m) = some (f ((mapFind k m).getD default)) := by
  induction m with
  | nil => simp [mapUpdate, mapFind]
  | cons kv rest ih =>
    obtain ⟨k0, v0⟩ := kv
    by_cases h : k0 = k
    · subst h
      simp [mapUpdate, mapFind]
    · simp [mapUpdate, mapFind, h, ih]

/-- C5: the dispatcher tries registered commands in registration order
and stops at the first handler that reports the line handled (the
commands after it are never consulted); a line matching no registered
command token, such as `u_myColor,1,0,0`, falls through to the uniform
registry's line parser, which creates the entry with vec3 arity and
values (1, 0, 0). -/
theorem dispatch_first_match_then_uniform_fallback :
    (∀ (cmd : CommandM) (rest rest2 : List CommandM) (line : String) (s : MainState),
      beginsWith line cmd.begins_with = true → (cmd.exec s line).1 = true →
      runCmdList (cmd :: rest) line s = runCmdList (cmd :: rest2) line s) ∧
    (∀ s : MainState,
      runCmdList commandsList "u_myColor,1,0,0" s = (false, s) ∧
      mapFind "u_myColor" (runCmd "u_myColor,1,0,0" s).sandbox.dataUniforms =
        some { utype := "vec3", values := [1, 0, 0], change := true }) := by
  constructor
  · intro cmd rest rest2 line s h1 h2
    simp only [runCmdList]
    rw [if_pos h1, if_pos h1]
    simp only [h2, if_true]
  · intro s
    refine ⟨rfl, ?_⟩
    have hq : parseAllFloats ["1", "0", "0"] = some [(1 : ℚ), 0, 0] := by decide
    show mapFind "u_myColor" (parseLine s.sandbox.dataUniforms "u_myColor,1,0,0").1 =
      some { utype := "vec3", values := [1, 0, 0], change := true }
    unfold parseLine
    have hs : splitComma "u_myColor,1,0,0" = ["u_myColor", "1", "0", "0"] := rfl
    rw [hs]
    dsimp only
    rw [if_pos (by norm_num), hq]
    dsimp only
    rw [mapFind_mapUpdate_self]
    rfl

/-- Witness for C5: a handled first command shields the rest of the
registry (so the tail is irrelevant), and the fallback creates the vec3
uniform in the default state. -/
theorem dispatch_first_match_then_uniform_fallback_witness :
    runCmdList
        [{ begins_with := "t", exec := fun s _ => (true, s) }]
        "t" ({} : MainState) =
      runCmdList
        [{ begins_with := "t", exec := fun s _ => (true, s) },
         { begins_with := "t", exec := fun s _ => (true, { s with bRun := false }) }]
        "t" ({} : MainState) ∧
    mapFind "u_myColor" (runCmd "u_myColor,1,0,0" ({} : MainState)).sandbox.dataUniforms =
      some { utype := "vec3", values := [1, 0, 0], change := true } :=
  ⟨dispatch_first_match_then_uniform_fallback.1
      { begins_with := "t", exec := fun s _ => (true, s) }
      []
      [{ begins_with := "t", exec := fun s _ => (true, { s with bRun := false }) }]
      "t" {} (by decide) (by decide),
   (dispatch_first_match_then_uniform_fallback.2 {}).2⟩

/-- C10: the bare `screenshot` line is handled only when a startup
output path was configured; with an empty `outputFile` the screenshot
handler (and every other command) reports unhandled, the line falls
through to the uniform-assignment parser, and the state is left exactly
as it was — no error surfaced. -/
theorem screenshot_without_output_falls_through (s : MainState) :
    (s.outputFile = "" →
      (runCmdList commandsList "screenshot" s).1 = false ∧
      runCmd "screenshot" s = s) ∧
    (∀ (c : Char) (cs : List Char), s.outputFile = String.mk (c :: cs) →
      (runCmdList commandsList "screenshot" s).1 = true ∧
      runCmd "screenshot" s =
        { s with sandbox := { s.sandbox with screenshotFile := s.outputFile } }) := by
  constructor
  · intro h
    obtain ⟨sb, br, t0, ff, fc, fl, o0, tl, fr⟩ := s
    simp only at h
    subst h
    refine ⟨rfl, ?_⟩
    have key : ({ sb with dataUniforms := sb.dataUniforms, uniformsChange := sb.uniformsChange || false } : SandboxM) = sb := by
      simp
    show (⟨({ sb with dataUniforms := sb.dataUniforms, uniformsChange := sb.uniformsChange || false } : SandboxM),
           br, t0, ff, fc, fl, "", tl, fr⟩ : MainState) =
         ⟨sb, br, t0, ff, fc, fl, "", tl, fr⟩
    rw [key]
  · intro c cs h
    obtain ⟨sb, br, t0, ff, fc, fl, o0, tl, fr⟩ := s
    simp only at h
    subst h
    exact ⟨rfl, rfl⟩

/-- Witness for C10: with no `-o` output file the `screenshot` line
leaves the default state untouched; with `-o o.png` it is handled and
stores the pending screenshot path. -/
theorem screenshot_without_output_falls_through_witness :
    ((runCmdList commandsList "screenshot" ({} : MainState)).1 = false ∧
      runCmd "screenshot" ({} : MainState) = {}) ∧
    ((runCmdList commandsList "screenshot" ({ outputFile := "o.png" } : MainState)).1 = true ∧
      runCmd "screenshot" ({ outputFile := "o.png" } : MainState) =
        { ({ outputFile := "o.png" } : MainState) with
          sandbox := { ({ outputFile := "o.png" } : MainState).sandbox with
            screenshotFile := ({ outputFile := "o.png" } : MainState).outputFile } }) :=
  ⟨(screenshot_without_output_falls_through {}).1 rfl,
   (screenshot_without_output_falls_through { outputFile := "o.png" }).2
     'o' ['.', 'p', 'n', 'g'] rfl⟩

/-- Registry for the C2 scenario: one primary fragment shader. -/
def c2Files : List WatchFile :=
  [{ type := FileType.FRAG_SHADER, path := "shader.frag", lastChange := 0 }]

/-- Sandbox for the C2 scenario: a previously loaded fragment source
with one collected dependency. -/
def c2Sandbox : SandboxM :=
  { frag_source := "prev source", frag_dependencies := ["lib.glsl"] }

/-- C2 counterexample: with the primary fragment file unreadable
(`fsLoad` fails on every path), `onFileChange` is claimed to leave the
stored shader source strings and dependency lists unchanged; in fact it
clears both before attempting the read and does not restore them on
failure. -/
theorem unreadable_primary_keeps_sources_cex :
    c2Sandbox.frag_source = "prev source" ∧
    c2Sandbox.frag_dependencies = ["lib.glsl"] ∧
    (onFileChange envTriv c2Files 0 c2Sandbox).2.frag_source = "" ∧
    (onFileChange envTriv c2Files 0 c2Sandbox).2.frag_dependencies = [] := by
  decide

/-- C2 amended: when the changed entry is a primary shader whose file is
unreadable at reload time, `onFileChange` skips `reloadShaders`
entirely — the compiled programs, framebuffers, pass arrays, uniform
registry and the Watch Registry all stay as they were — but the changed
stage's stored source string is reset to empty and its dependency list
cleared (they are wiped before the failed read), and the change flag is
raised. -/
theorem unreadable_primary_aborts_reload (env : Env) (files : List WatchFile) (index : Nat)
    (sb : SandboxM) (entry : WatchFile)
    (h1 : files.get? index = some entry) (h3 : env.fsLoad entry.path = none) :
    (entry.type = FileType.FRAG_SHADER →
      onFileChange env files index sb =
        (files, { sb with frag_source := "", frag_dependencies := [], change := true })) ∧
    (entry.type = FileType.VERT_SHADER →
      onFileChange env files index sb =
        (files, { sb with vert_source := "", vert_dependencies := [], change := true })) := by
  constructor
  · intro h2
    simp only [onFileChange]
    rw [h1]
    simp [h2, h3, SandboxM.flagChange]
  · intro h2
    simp only [onFileChange]
    rw [h1]
    simp [h2, h3, SandboxM.flagChange]

/-- Witness for C2 (amended): the concrete scenario of the
counterexample, where the failed reload leaves exactly the cleared
fragment source and dependency list plus the raised change flag. -/
theorem unreadable_primary_aborts_reload_witness :
    onFileChange envTriv c2Files 0 c2Sandbox =
      (c2Files, { c2Sandbox with frag_source := "", frag_dependencies := [], change := true }) :=
  (unreadable_primary_aborts_reload envTriv c2Files 0 c2Sandbox
    { type := FileType.FRAG_SHADER, path := "shader.frag", lastChange := 0 }
    (by decide) (by decide)).1 (by decide)

/-! ## Projection lemmas for the reload pipeline -/

theorem reloadA_functions (env : Env) (files : List WatchFile) (sb : SandboxM) :
    (reloadShadersA env files sb).2.functions =
      checkPresenceIn sb.functions sb.vert_source sb.frag_source := by
  simp only [reloadShadersA, SandboxM.flagChange, SandboxM.addDefineAll]
  split <;> split <;> rfl

theorem reloadA_frag (env : Env) (files : List WatchFile) (sb : SandboxM) :
    (reloadShadersA env files sb).2.frag_source = sb.frag_source := by
  simp only [reloadShadersA, SandboxM.flagChange, SandboxM.addDefineAll]
  split <;> split <;> rfl

theorem reloadA_fxaa (env : Env) (files : List WatchFile) (sb : SandboxM) :
    (reloadShadersA env files sb).2.fxaa = sb.fxaa := by
  simp only [reloadShadersA, SandboxM.flagChange, SandboxM.addDefineAll]
  split <;> split <;> rfl

theorem reloadA_buffers (env : Env) (files : List WatchFile) (sb : SandboxM) :
    (reloadShadersA env files sb).2.buffers = sb.buffers := by
  simp only [reloadShadersA, SandboxM.flagChange, SandboxM.addDefineAll]
  split <;> split <;> rfl

theorem reloadA_buffers_total (env : Env) (files : List WatchFile) (sb : SandboxM) :
    (reloadShadersA env files sb).2.buffers_total = env.countBuffers sb.frag_source := by
  simp only [reloadShadersA, SandboxM.flagChange, SandboxM.addDefineAll]
  split <;> split <;> rfl

theorem reloadA_buffers_shaders_len (env : Env) (files : List WatchFile) (sb : SandboxM) :
    (reloadShadersA env files sb).2.buffers_shaders.length = sb.buffers_shaders.length := by
  simp only [reloadShadersA, SandboxM.flagChange, SandboxM.addDefineAll]
  split <;> split <;> simp [List.length_mapIdx]

theorem reloadA_buffers_shaders_nocubemap (env : Env) (files : List WatchFile) (sb : SandboxM)
    (h : sb.cubemap = false) :
    (reloadShadersA env files sb).2.buffers_shaders = sb.buffers_shaders := by
  simp only [reloadShadersA, SandboxM.flagChange, SandboxM.addDefineAll]
  split <;> simp [h]

theorem updateBuffers_functions (env : Env) (sb : SandboxM) :
    (updateBuffers env sb).functions = sb.functions := by
  simp only [updateBuffers]
  split <;> rfl

theorem updateBuffers_frag (env : Env) (sb : SandboxM) :
    (updateBuffers env sb).frag_source = sb.frag_source := by
  simp only [updateBuffers]
  split <;> rfl

theorem updateBuffers_fxaa (env : Env) (sb : SandboxM) :
    (updateBuffers env sb).fxaa = sb.fxaa := by
  simp only [updateBuffers]
  split <;> rfl

theorem reloadB_functions (env : Env) (sb : SandboxM) :
    (reloadShadersB env sb).functions =
      (if env.checkPostprocessing sb.frag_source then sb.functions
       else if sb.fxaa then mapUpdate "u_scene" (fun f => { f with present := true }) sb.functions
       else sb.functions) := by
  simp only [reloadShadersB]
  split <;> (repeat' split) <;> rfl

theorem reloadB_buffers (env : Env) (sb : SandboxM) :
    (reloadShadersB env sb).buffers = sb.buffers := by
  simp only [reloadShadersB]
  split <;> (repeat' split) <;> rfl

theorem reloadB_buffers_shaders (env : Env) (sb : SandboxM) :
    (reloadShadersB env sb).buffers_shaders = sb.buffers_shaders := by
  simp only [reloadShadersB]
  split <;> (repeat' split) <;> rfl

theorem mapFind_checkPresenceIn (name : String) (fns : List (String × UniformFunctionM))
    (vs fs : String) :
    mapFind name (checkPresenceIn fns vs fs) =
      (mapFind name fns).map
        (fun u => { u with present := occursIn name vs || occursIn name fs }) := by
  induction fns with
  | nil => rfl
  | cons kv rest ih =>
    obtain ⟨k0, v0⟩ := kv
    by_cases h : k0 = name
    · subst h
      simp [checkPresenceIn, mapFind]
    · simp [checkPresenceIn, mapFind, h, ih]
      simpa [checkPresenceIn] using ih

theorem mapFind_mapUpdate_ne {α : Type} [Inhabited α] (k name : String) (h : name ≠ k)
    (f : α → α) (m : List (String × α)) :
    mapFind name (mapUpdate k f m) = mapFind name m := by
  have hk2 : ¬k = name := fun hh => h hh.symm
  induction m with
  | nil => simp [mapUpdate, mapFind, hk2]
  | cons kv rest ih =>
    obtain ⟨k0, v0⟩ := kv
    by_cases hk : k0 = k
    · subst hk
      simp [mapUpdate, mapFind, hk2, ih]
    · simp [mapUpdate, mapFind, hk, ih]

/-- Sandbox for the C4 counterexample: FXAA was requested at startup and
the fragment source mentions neither a post-processing marker nor
`u_scene`. -/
def c4Sandbox : SandboxM :=
  { fxaa := true, frag_source := "void main()", vert_source := "",
    functions := [("u_scene", { declType := "sampler2D" })] }

/-- C4 counterexample: after a reload with the FXAA fallback active, the
`u_scene` uniform function is marked present even though its name occurs
in neither source string, so "present iff the name occurs in the
sources" fails. -/
theorem presence_iff_occurs_cex :
    mapFind "u_scene" (reloadShaders envTriv [] c4Sandbox).2.functions =
      some { declType := "sampler2D", present := true } ∧
    occursIn "u_scene" c4Sandbox.vert_source = false ∧
    occursIn "u_scene" c4Sandbox.frag_source = false := by
  decide

/-- C4 amended: after every reload, a registered uniform function's
present flag equals the textual-occurrence scan of its name over the
two source strings, except that `u_scene` is additionally forced present
when the FXAA fallback post-processing path is taken (FXAA requested and
no post-processing marker in the fragment source). -/
theorem presence_is_textual_scan_with_fxaa_exception (env : Env) (files : List WatchFile)
    (sb : SandboxM) (name : String) (fn : UniformFunctionM)
    (h : mapFind name (reloadShaders env files sb).2.functions = some fn) :
    fn.present = (occursIn name sb.vert_source || occursIn name sb.frag_source ||
      (name == "u_scene" && sb.fxaa && !env.checkPostprocessing sb.frag_source)) := by
  have hfun : (reloadShaders env files sb).2.functions =
      (if env.checkPostprocessing sb.frag_source then
        checkPresenceIn sb.functions sb.vert_source sb.frag_source
       else if sb.fxaa then
        mapUpdate "u_scene" (fun f => { f with present := true })
          (checkPresenceIn sb.functions sb.vert_source sb.frag_source)
       else checkPresenceIn sb.functions sb.vert_source sb.frag_source) := by
    show (reloadShadersB env (updateBuffers env (reloadShadersA env files sb).2)).functions = _
    rw [reloadB_functions, updateBuffers_frag, updateBuffers_fxaa, updateBuffers_functions,
        reloadA_frag, reloadA_fxaa, reloadA_functions]
  rw [hfun] at h
  by_cases hpp : env.checkPostprocessing sb.frag_source
  · rw [if_pos hpp] at h
    rw [mapFind_checkPresenceIn] at h
    rcases Option.map_eq_some'.mp h with ⟨u, _, hfu⟩
    rw [← hfu]
    simp [hpp]
  · rw [if_neg hpp] at h
    have hpp2 : env.checkPostprocessing sb.frag_source = false := by
      simpa using hpp
    by_cases hfx : sb.fxaa
    · rw [if_pos hfx] at h
      by_cases hn : name = "u_scene"
      · subst hn
        rw [mapFind_mapUpdate_self] at h
        rw [← Option.some.inj h]
        simp [hpp2, hfx]
      · rw [mapFind_mapUpdate_ne "u_scene" name hn] at h
        rw [mapFind_checkPresenceIn] at h
        rcases Option.map_eq_some'.mp h with ⟨u, _, hfu⟩
        rw [← hfu]
        simp [hn]
    · rw [if_neg hfx] at h
      have hfx2 : sb.fxaa = false := by simpa using hfx
      rw [mapFind_checkPresenceIn] at h
      rcases Option.map_eq_some'.mp h with ⟨u, _, hfu⟩
      rw [← hfu]
      simp [hfx2]

/-- Sandbox for the C4 amended witness: one registered function whose
name occurs only in the fragment source. -/
def c4WitnessSandbox : SandboxM :=
  { frag_source := "uniform float u_time", vert_source := "",
    functions := [("u_time", { declType := "float" })] }

/-- Witness for C4 (amended) at a concrete reload: `u_time` occurs in
the fragment source and ends up present. -/
theorem presence_is_textual_scan_witness :
    ({ declType := "float", present := true } : UniformFunctionM).present =
      (occursIn "u_time" c4WitnessSandbox.vert_source
        || occursIn "u_time" c4WitnessSandbox.frag_source
        || ("u_time" == "u_scene" && c4WitnessSandbox.fxaa
            && !envTriv.checkPostprocessing c4WitnessSandbox.frag_source)) :=
  presence_is_textual_scan_with_fxaa_exception envTriv [] c4WitnessSandbox "u_time"
    { declType := "float", present := true } (by decide)

theorem updateBuffers_ne_case (env : Env) (sb : SandboxM)
    (h : sb.buffers_total ≠ sb.buffers.length) :
    (updateBuffers env sb).buffers =
      (List.range sb.buffers_total).map
        (fun _ => { allocated := true, width := env.winW, height := env.winH,
                    ftype := FboType.COLOR_TEXTURE }) ∧
    (updateBuffers env sb).buffers_shaders =
      (List.range sb.buffers_total).map (fun i => recompilePass sb.frag_source i {}) := by
  simp only [updateBuffers]
  rw [if_pos h]
  exact ⟨rfl, rfl⟩

theorem updateBuffers_eq_case (env : Env) (sb : SandboxM)
    (h : sb.buffers_total = sb.buffers.length) :
    (updateBuffers env sb).buffers = sb.buffers ∧
    (updateBuffers env sb).buffers_shaders =
      sb.buffers_shaders.mapIdx (recompilePass sb.frag_source) := by
  simp only [updateBuffers]
  rw [if_neg (fun hne => hne h)]
  exact ⟨rfl, rfl⟩

/-- C1: after `reloadShaders` (which runs `_updateBuffers`), the buffer
framebuffer array and the per-pass shader array both have length exactly
the pass count freshly counted from the fragment source; when the new
count differs from the allocated count, both arrays are discarded and
rebuilt to the new count, each pass shader a fresh shader compiled with
its `BUFFER_<i>` define; when the count is unchanged, the framebuffer
array is untouched (not cleared) and every existing pass shader is
recompiled in place. -/
theorem reload_reconciles_buffer_passes (env : Env) (files : List WatchFile) (sb : SandboxM)
    (hlen : sb.buffers_shaders.length = sb.buffers.length) :
    ((reloadShaders env files sb).2.buffers.length = env.countBuffers sb.frag_source ∧
     (reloadShaders env files sb).2.buffers_shaders.length = env.countBuffers sb.frag_source) ∧
    (env.countBuffers sb.frag_source ≠ sb.buffers.length →
      (reloadShaders env files sb).2.buffers =
        (List.range (env.countBuffers sb.frag_source)).map
          (fun _ => { allocated := true, width := env.winW, height := env.winH,
                      ftype := FboType.COLOR_TEXTURE }) ∧
      (reloadShaders env files sb).2.buffers_shaders =
        (List.range (env.countBuffers sb.frag_source)).map
          (fun i => recompilePass sb.frag_source i {})) ∧
    (env.countBuffers sb.frag_source = sb.buffers.length →
      (reloadShaders env files sb).2.buffers = sb.buffers ∧
      (reloadShaders env files sb).2.buffers_shaders.length = sb.buffers_shaders.length ∧
      (sb.cubemap = false →
        (reloadShaders env files sb).2.buffers_shaders =
          sb.buffers_shaders.mapIdx (recompilePass sb.frag_source))) := by
  have hres2 : (reloadShaders env files sb).2 =
      reloadShadersB env (updateBuffers env (reloadShadersA env files sb).2) := rfl
  have hbufA := reloadA_buffers env files sb
  have htotA := reloadA_buffers_total env files sb
  have hfragA := reloadA_frag env files sb
  have hlenA := reloadA_buffers_shaders_len env files sb
  by_cases hc : env.countBuffers sb.frag_source = sb.buffers.length
  · have hEq : (reloadShadersA env files sb).2.buffers_total =
        (reloadShadersA env files sb).2.buffers.length := by
      rw [htotA, hbufA]; exact hc
    obtain ⟨hb, hs⟩ := updateBuffers_eq_case env (reloadShadersA env files sb).2 hEq
    have hFinB : (reloadShaders env files sb).2.buffers = sb.buffers := by
      rw [hres2, reloadB_buffers, hb, hbufA]
    have hFinS : (reloadShaders env files sb).2.buffers_shaders =
        (reloadShadersA env files sb).2.buffers_shaders.mapIdx
          (recompilePass sb.frag_source) := by
      rw [hres2, reloadB_buffers_shaders, hs, hfragA]
    refine ⟨⟨?_, ?_⟩, fun hne => absurd hc hne, fun _ => ⟨hFinB, ?_, ?_⟩⟩
    · rw [hFinB, hc]
    · rw [hFinS]
      simp [List.length_mapIdx, hlenA, hlen, hc]
    · rw [hFinS]
      simp [List.length_mapIdx, hlenA]
    · intro hcu
      rw [hFinS, reloadA_buffers_shaders_nocubemap env files sb hcu]
  · have hNe : (reloadShadersA env files sb).2.buffers_total ≠
        (reloadShadersA env files sb).2.buffers.length := by
      rw [htotA, hbufA]; exact hc
    obtain ⟨hb, hs⟩ := updateBuffers_ne_case env (reloadShadersA env files sb).2 hNe
    have hFinB : (reloadShaders env files sb).2.buffers =
        (List.range (env.countBuffers sb.frag_source)).map
          (fun _ => { allocated := true, width := env.winW, height := env.winH,
                      ftype := FboType.COLOR_TEXTURE }) := by
      rw [hres2, reloadB_buffers, hb, htotA]
    have hFinS : (reloadShaders env files sb).2.buffers_shaders =
        (List.range (env.countBuffers sb.frag_source)).map
          (fun i => recompilePass sb.frag_source i {}) := by
      rw [hres2, reloadB_buffers_shaders, hs, htotA, hfragA]
    refine ⟨⟨?_, ?_⟩, fun _ => ⟨hFinB, hFinS⟩, fun heq => absurd heq hc⟩
    · rw [hFinB]; simp
    · rw [hFinS]; simp

/-- Environment for the C1 witness: the marker scan counts two buffer
passes. -/
def c1Env : Env :=
  { envTriv with countBuffers := fun _ => 2 }

/-- Witness for C1: reloading the default sandbox (no allocated passes)
under a scan that counts two passes yields arrays of length two. -/
theorem reload_reconciles_buffer_passes_witness :
    (reloadShaders c1Env [] ({} : SandboxM)).2.buffers.length =
      c1Env.countBuffers ({} : SandboxM).frag_source ∧
    (reloadShaders c1Env [] ({} : SandboxM)).2.buffers_shaders.length =
      c1Env.countBuffers ({} : SandboxM).frag_source :=
  (reload_reconciles_buffer_passes c1Env [] {} (by decide)).1

theorem renderFrame_record (env : Env) (t : SandboxM) :
    (renderFrame env t).record = t.record := by
  simp only [renderFrame]
  split <;> split <;> rfl

theorem renderFrame_screenshotFile (env : Env) (t : SandboxM) :
    (renderFrame env t).screenshotFile = t.screenshotFile := by
  simp only [renderFrame]
  split <;> split <;> rfl

theorem renderFrame_initialized (env : Env) (t : SandboxM) :
    (renderFrame env t).initialized = t.initialized := by
  simp only [renderFrame]
  split <;> split <;> rfl

theorem renderDone_screenshot_empty (t : SandboxM) (h : t.screenshotFile = "") :
    (renderDone t).screenshotFile = "" := by
  simp only [renderDone, SandboxM.unflagChange]
  split <;> (repeat' split) <;> simp [h]

theorem renderDone_saves_screenshot (t : SandboxM) (hR : t.record = false)
    (hS : t.screenshotFile ≠ "") :
    (renderDone t).screenshotFile = "" := by
  have hS2 : (t.screenshotFile != "") = true := by simpa using hS
  simp only [renderDone, SandboxM.unflagChange]
  simp only [hR, hS2]
  simp only [Bool.false_eq_true, if_false, if_true]
  split <;> rfl

/-- State for the C6 counterexample: a recording in flight (head 0 of
10 seconds at 1 frame per second), no screenshot pending. -/
def c6State : MainState :=
  { sandbox := { record := true, record_head := 0, record_end := 10, record_fdelta := 1,
                 record_counter := 0, initialized := true } }

/-- C6 counterexample: dispatching `quit` mid-recording leaves the
running flag up and raises the timeout flag, but the very next loop
iteration clears the running flag while the recording is still pending
(its head is far from its end), so "finish any pending recording before
the running flag is cleared" fails. -/
theorem quit_finishes_recording_cex :
    (runCmd "quit" c6State).bRun = true ∧
    (runCmd "quit" c6State).timeOut = true ∧
    (loopIter envTriv 0 (runCmd "quit" c6State)).bRun = false ∧
    (loopIter envTriv 0 (runCmd "quit" c6State)).sandbox.record = true ∧
    (loopIter envTriv 0 (runCmd "quit" c6State)).sandbox.record_head = 1 ∧
    (loopIter envTriv 0 (runCmd "quit" c6State)).sandbox.record_end = 10 := by
  have h1 : runCmd "quit" c6State = { c6State with timeOut := true } := rfl
  refine ⟨rfl, rfl, ?_, ?_, ?_, ?_⟩ <;>
    (rw [h1]
     simp only [loopIter, c6State, envTriv, SandboxM.haveChange, renderFrame, renderDone,
       SandboxM.unflagChange]
     norm_num)

/-- C6 amended: `q` clears the running flag at once and no further loop
iterations (hence no further frames) run; `quit` leaves the running flag
true and raises the timeout flag; a pending screenshot is then completed
by one final rendered frame, at whose end the running flag is cleared —
but a pending recording does not defer shutdown: with no screenshot
pending, the running flag is cleared at the end of the next frame even
if a recording is still in flight. -/
theorem q_stops_quit_flushes_screenshot :
    (∀ s : MainState, runCmd "q" s = { s with bRun := false }) ∧
    (∀ (env : Env) (t : ℚ) (n : Nat) (s : MainState),
      s.bRun = false → runLoop env t n s = s) ∧
    (∀ s : MainState, runCmd "quit" s = { s with timeOut := true }) ∧
    (∀ (env : Env) (t : ℚ) (s : MainState),
      s.timeOut = true → s.timeLimit < 0 → s.fileChanged = -1 →
      s.sandbox.record = false → s.sandbox.screenshotFile ≠ "" →
      (loopIter env t s).sandbox.screenshotFile = "" ∧
      (loopIter env t s).framesRendered = s.framesRendered + 1 ∧
      (loopIter env t s).bRun = false) ∧
    (∀ (env : Env) (t : ℚ) (s : MainState),
      s.timeOut = true → s.timeLimit < 0 → s.fileChanged = -1 →
      s.sandbox.screenshotFile = "" →
      (loopIter env t s).bRun = false) := by
  refine ⟨fun s => rfl, ?_, fun s => rfl, ?_, ?_⟩
  · intro env t n s h
    cases n with
    | zero => rfl
    | succ n => simp [runLoop, h]
  · intro env t s hT hL hF hR hS
    have ht : ¬(s.timeLimit ≥ 0 ∧ t ≥ s.timeLimit) := fun hc => absurd hc.1 (not_le.mpr hL)
    have hf : ¬(s.fileChanged ≠ -1) := by simpa using hF
    have hsub : (renderDone (renderFrame env s.sandbox)).screenshotFile = "" := by
      apply renderDone_saves_screenshot
      · rw [renderFrame_record]; exact hR
      · rw [renderFrame_screenshotFile]; exact hS
    simp only [loopIter]
    rw [if_neg ht, if_neg hf, if_neg (by simp [hT])]
    rw [if_pos (by simp [hT, hsub])]
    exact ⟨hsub, rfl, rfl⟩
  · intro env t s hT hL hF hS
    have ht : ¬(s.timeLimit ≥ 0 ∧ t ≥ s.timeLimit) := fun hc => absurd hc.1 (not_le.mpr hL)
    have hf : ¬(s.fileChanged ≠ -1) := by simpa using hF
    have hsub : (renderDone (renderFrame env s.sandbox)).screenshotFile = "" := by
      apply renderDone_screenshot_empty
      rw [renderFrame_screenshotFile]; exact hS
    simp only [loopIter]
    rw [if_neg ht, if_neg hf, if_neg (by simp [hT])]
    rw [if_pos (by simp [hT, hsub])]

/-- State for the C6 amended witness: timed out with a pending
screenshot and no recording. -/
def c6wState : MainState :=
  { timeOut := true,
    sandbox := { screenshotFile := "out.png", initialized := true } }

/-- Witness for C6 (amended): after `q` the loop never iterates again,
and a timed-out state with a pending screenshot renders exactly one more
frame, saves the screenshot, and clears the running flag. -/
theorem q_stops_quit_flushes_screenshot_witness :
    runLoop envTriv 0 5 (runCmd "q" ({} : MainState)) = runCmd "q" ({} : MainState) ∧
    ((loopIter envTriv 0 c6wState).sandbox.screenshotFile = "" ∧
     (loopIter envTriv 0 c6wState).framesRendered = c6wState.framesRendered + 1 ∧
     (loopIter envTriv 0 c6wState).bRun = false) :=
  ⟨q_stops_quit_flushes_screenshot.2.1 envTriv 0 5 (runCmd "q" {}) (by decide),
   q_stops_quit_flushes_screenshot.2.2.2.1 envTriv 0 c6wState
     (by decide) (by norm_num [c6wState]) (by decide) (by decide) (by decide)⟩

end GlslViewer
